import Mathlib

/-!
# Verification of the 82ch transcript pipeline against its specification

Shallow embedding of the Python sources `transcribe.py`,
`youtube_transcription.py` and `youtube_livestream_extractor.py`.
Pure logic (URL parsing, JSON shape normalization, retry control,
progress bookkeeping, file-persistence order) is translated into
executable Lean definitions; external effects (HTTP, subprocess,
speech-to-text, clock) become explicit oracle parameters, and the
filesystem becomes an association list from paths to contents.
-/

namespace Pipeline

/-- Decoded JSON values, the shapes `json.loads` can produce. -/
inductive JVal where
  | jnull : JVal
  | jbool : Bool → JVal
  | jnum  : Int → JVal
  | jstr  : String → JVal
  | jarr  : List JVal → JVal
  | jobj  : List (String × JVal) → JVal
deriving Repr

/-- Python dict lookup `data[k]` via first matching key (dict keys are
unique; first match is the binding). -/
def lookupKey (kvs : List (String × JVal)) (k : String) : Option JVal :=
  (kvs.find? (fun p => p.1 = k)).map (fun p => p.2)

/-- Python membership test `pat in s` on strings: `pat` occurs as a
contiguous substring of `s`. -/
def strContains (s pat : String) : Bool :=
  decide (pat.data <:+: s.data)

/-- Character class `[a-zA-Z0-9_-]` of the video-id regex in
`extract_video_id` (transcribe.py line 80, extractor line 210). -/
def isIdChar (c : Char) : Bool :=
  ('a' ≤ c && c ≤ 'z') || ('A' ≤ c && c ≤ 'Z') || ('0' ≤ c && c ≤ '9') ||
  c = '-' || c = '_'

/-- Match a literal pattern at the head of a char list, returning the
remainder on success (the literal parts of the regex alternatives). -/
def stripPre : List Char → List Char → Option (List Char)
  | [], s => some s
  | _ :: _, [] => none
  | p :: ps, c :: cs => if p = c then stripPre ps cs else none

/-- `[a-zA-Z0-9_-]{11}`: succeed iff at least 11 id-alphabet characters
follow, capturing exactly the first 11. -/
def takeId (r : List Char) : Option (List Char) :=
  if 11 ≤ r.length && (r.take 11).all isIdChar then some (r.take 11) else none

/-- Try the regex `(?:youtube\.com\/watch\?v=|youtu\.be\/)([a-zA-Z0-9_-]{11})`
at one position.  The two alternatives diverge within their literal parts
(`youtube` vs `youtu.`), so at any position at most one literal can
succeed and trying them in regex order is exact. -/
def matchAt (s : List Char) : Option (List Char) :=
  match stripPre "youtube.com/watch?v=".data s with
  | some r => takeId r
  | none =>
    match stripPre "youtu.be/".data s with
    | some r => takeId r
    | none => none

/-- `re.search` semantics for this pattern: leftmost position wins. -/
def searchCore : List Char → Option (List Char)
  | [] => none
  | c :: cs =>
    match matchAt (c :: cs) with
    | some r => some r
    | none => searchCore cs

/-- `extract_video_id` (transcribe.py lines 72-87, identical copy at
youtube_livestream_extractor.py lines 202-217): `None` for a falsy URL,
else the first regex capture, else `None`. -/
def extract_video_id (url : String) : Option String :=
  if url.data.isEmpty then none
  else (searchCore url.data).map (fun cs => String.mk cs)

/-- Take the longest prefix strictly before the first occurrence of a
separator character — Python `s.split(sep)[0]` for a one-char `sep`. -/
def takeUntilChar (sep : Char) : List Char → List Char
  | [] => []
  | c :: cs => if c = sep then [] else c :: takeUntilChar sep cs

/-- Python `s.split(marker)[1]`: everything after the first occurrence of
`marker` (callers guarantee `marker in s`). -/
def afterFirst (marker : List Char) : List Char → List Char
  | [] => []
  | c :: cs =>
    match stripPre marker (c :: cs) with
    | some r => r
    | none => afterFirst marker cs

/-- `YouTubeTranscription.get_video_id_from_url` (youtube_transcription.py
lines 43-58): split on the watch marker and cut at `&`, or split on the
short marker and cut at `?`, else raise `ValueError` (modelled as
`Except.error`). -/
def get_video_id_from_url (url : String) : Except String String :=
  if strContains url "youtube.com/watch?v=" then
    .ok (String.mk (takeUntilChar '&' (afterFirst "youtube.com/watch?v=".data url.data)))
  else if strContains url "youtu.be/" then
    .ok (String.mk (takeUntilChar '?' (afterFirst "youtu.be/".data url.data)))
  else
    .error ("無効なYouTube URL: " ++ url)

example : extract_video_id "https://youtu.be/zzzzzzzzzzz" = some "zzzzzzzzzzz" := by decide
example : extract_video_id "https://www.youtube.com/watch?v=abc-def_123&t=4" = some "abc-def_123" := by decide
example : extract_video_id "hello" = none := by decide
example : get_video_id_from_url "hello" = .error "無効なYouTube URL: hello" := rfl
example : get_video_id_from_url "https://youtu.be/zzzzzzzzzzz?t=1" = .ok "zzzzzzzzzzz" := rfl

/-- Discriminator: is this JSON value a sequence (Python `list`)? -/
def JVal.isArr : JVal → Bool
  | .jarr _ => true
  | _ => false

/-- The value of key `k` when it is present and bound to a list; the
shared shape of the three `if key in data: ... isinstance(value, list)`
blocks of both normalizers (non-list values fall through to the next
key, as in the code). -/
def keyList (kvs : List (String × JVal)) (k : String) : Option (List JVal) :=
  match lookupKey kvs k with
  | some (.jarr l) => some l
  | _ => none

/-- `get_livestreams_from_repo` (transcribe.py lines 22-70), from
`json.loads` onward: a dict is probed for `livestreams`, then
`episodes`, then `videos`, returning the first list-valued one;
otherwise — including for an unrecognized dict — `data` itself is
returned; a list (or any non-dict) is returned unchanged. -/
def get_livestreams_T (data : JVal) : JVal :=
  match data with
  | .jobj kvs =>
    match keyList kvs "livestreams" with
    | some l => .jarr l
    | none =>
      match keyList kvs "episodes" with
      | some l => .jarr l
      | none =>
        match keyList kvs "videos" with
        | some l => .jarr l
        | none => .jobj kvs
  | d => d

/-- One dict value is "video-like" when it is a sub-dict holding `url`
or `videoId`, or a string containing a YouTube marker (extractor
lines 107-115). -/
def videoLikeValue : JVal → Bool
  | .jobj sub => (lookupKey sub "url").isSome || (lookupKey sub "videoId").isSome
  | .jstr s => strContains s "youtube.com" || strContains s "youtu.be"
  | _ => false

/-- `get_livestreams_from_repo` (youtube_livestream_extractor.py lines
55-125), from `json.loads` onward: a dict is probed for `episodes`,
then `videos`, then `livestreams` (note the order), returning the first
list-valued one; else the video-like values are collected; else all
dict values are returned as a list.  A list (or any non-dict) is
returned unchanged. -/
def get_livestreams_E (data : JVal) : JVal :=
  match data with
  | .jobj kvs =>
    match keyList kvs "episodes" with
    | some l => .jarr l
    | none =>
      match keyList kvs "videos" with
      | some l => .jarr l
      | none =>
        match keyList kvs "livestreams" with
        | some l => .jarr l
        | none =>
          let videoItems := (kvs.filter (fun p => videoLikeValue p.2)).map (fun p => p.2)
          if videoItems.isEmpty then .jarr (kvs.map (fun p => p.2))
          else .jarr videoItems
  | d => d

example :
    get_livestreams_E (.jobj [("livestreams", .jarr [.jstr "L"]), ("episodes", .jarr [.jstr "E"])])
      = .jarr [.jstr "E"] := rfl
example :
    get_livestreams_T (.jobj [("livestreams", .jarr [.jstr "L"]), ("episodes", .jarr [.jstr "E"])])
      = .jarr [.jstr "L"] := rfl
example : (get_livestreams_T (.jobj [("x", .jstr "y")])).isArr = false := rfl
example : get_livestreams_E (.jobj [("x", .jstr "y")]) = .jarr [.jstr "y"] := rfl

/-- Outcome of one attempt of the try-block of
`YouTubeTranscription.get_transcript` (list + find + fetch).
`contentError` stands for `TranscriptsDisabled`, `NoTranscriptFound` or
`NoTranscriptAvailable`; `transientError` for every other exception. -/
inductive FetchOutcome where
  | success : FetchOutcome
  | contentError : FetchOutcome
  | transientError : FetchOutcome
deriving Repr, DecidableEq

/-- Loop body of `get_transcript` (youtube_transcription.py lines
71-106).  `attempt` is the Python loop variable, `rem` the remaining
iterations of `range(max_retries)` (so `attempt + rem = maxRetries` at
every call).  The result records the returned value, the number of
invocations of the operation, and the cumulative `time.sleep` duration.
The Python guard `attempt < self.max_retries - 1` over ints is
`attempt + 1 < maxRetries` here (equivalent for every reachable
`attempt`, since the loop runs only when `maxRetries ≥ 1`). -/
def getTranscriptGo (maxRetries : Nat) (delay : ℚ) (oracle : Nat → FetchOutcome)
    (jitter : Nat → ℚ) : Nat → Nat → Option Unit × Nat × ℚ
  | _, 0 => (none, 0, 0)
  | attempt, rem + 1 =>
    match oracle attempt with
    | .success => (some (), 1, 0)
    | .contentError => (none, 1, 0)
    | .transientError =>
      if attempt + 1 < maxRetries then
        let r := getTranscriptGo maxRetries delay oracle jitter (attempt + 1) rem
        (r.1, r.2.1 + 1, r.2.2 + delay * jitter attempt)
      else
        (none, 1, 0)

/-- `YouTubeTranscription.get_transcript` with the per-attempt outcome
and the per-attempt `random.uniform(0.5, 1.5)` draw as oracles. -/
def get_transcript (maxRetries : Nat) (delay : ℚ) (oracle : Nat → FetchOutcome)
    (jitter : Nat → ℚ) : Option Unit × Nat × ℚ :=
  getTranscriptGo maxRetries delay oracle jitter 0 maxRetries

example :
    get_transcript 3 5 (fun _ => .contentError) (fun _ => 1) = (none, 1, 0) := rfl
example :
    get_transcript 3 5 (fun _ => .transientError) (fun _ => 1) = (none, 3, 10) := by
  norm_num [get_transcript, getTranscriptGo]
example :
    get_transcript 3 5 (fun i => if i = 1 then .success else .transientError)
      (fun _ => 1) = (some (), 2, 5) := by
  norm_num [get_transcript, getTranscriptGo]
example :
    get_transcript 0 5 (fun _ => .contentError) (fun _ => 1) = (none, 0, 0) := rfl

/-- Filesystem as an association list from paths to file contents; the
most recent binding (head-most) is the current one. -/
abbrev FS (α : Type) : Type := List (String × α)

/-- Current content at a path, `none` when no file exists there. -/
def fsGet {α : Type} (fs : FS α) (p : String) : Option α :=
  (List.find? (fun q => q.1 = p) fs).map (fun q => q.2)

/-- Create or overwrite the file at `p`. -/
def fsSet {α : Type} (fs : FS α) (p : String) (v : α) : FS α :=
  (p, v) :: fs

/-- `os.path.join(output_dir, f"{video_id}.md")`, the canonical output
path shared by the writers and the already-exists checks. -/
def mdFilePath (dir vid : String) : String := dir ++ "/" ++ vid ++ ".md"

/-- `check_transcript_exists` (extractor lines 154-159, transcribe.py
lines 322-327) and the `output_file.exists()` check of `process_video`
(youtube_transcription.py line 228): the file at the canonical path
exists. -/
def check_transcript_exists {α : Type} (fs : FS α) (dir vid : String) : Bool :=
  (fsGet fs (mdFilePath dir vid)).isSome

/-- The sequence of filesystem states visible during
`YouTubeTranscription.save_transcript_to_file` (youtube_transcription.py
lines 177-202): falsy content returns `None` without touching the disk;
otherwise `open(file_path, "w")` first truncates/creates the file at the
canonical path (content `""`), then `f.write(md_content)` fills it.  No
temporary file and no rename appear in the code. -/
def saveTranscriptStates (fs : FS String) (mdContent : String) (dir vid : String) :
    List (FS String) :=
  if mdContent = "" then [fs]
  else
    [fs,
     fsSet fs (mdFilePath dir vid) "",
     fsSet fs (mdFilePath dir vid) mdContent]

/-- Content of the audio file at `<output_dir>/<video_id>.mp3`: either
the download produced by variant `method`, or the 8-byte dummy MP3
header written when every variant fails. -/
inductive AudioData where
  | real : Nat → AudioData
  | dummy : AudioData
deriving Repr, DecidableEq

/-- `os.path.join(output_dir, f"{video_id}.mp3")`. -/
def audioFilePath (dir vid : String) : String := dir ++ "/" ++ vid ++ ".mp3"

/-- The `for method in methods` loop of `download_youtube_audio`
(transcribe.py lines 104-207): run download variants in order; first
zero exit wins; if all five fail, write the dummy MP3 header and return
the same path.  The third component counts variant invocations
(`subprocess.run` calls).  The `except` branch guarding the dummy write
(an `open` failure, environmental) is not modelled; the normal path
writes the dummy and returns the path. -/
def tryDownloadMethods (fs : FS AudioData) (methodOk : Nat → Bool) (out : String) :
    List Nat → Option String × FS AudioData × Nat
  | [] => (some out, fsSet fs out .dummy, 0)
  | i :: rest =>
    if methodOk i then (some out, fsSet fs out (.real i), 1)
    else
      let r := tryDownloadMethods fs methodOk out rest
      (r.1, r.2.1, r.2.2 + 1)

/-- `download_youtube_audio` (transcribe.py lines 89-207): if the file
already exists the download is skipped entirely; otherwise the five
variants are tried in order. -/
def download_youtube_audio (fs : FS AudioData) (methodOk : Nat → Bool)
    (vid dir : String) : Option String × FS AudioData × Nat :=
  let out := audioFilePath dir vid
  if (fsGet fs out).isSome then (some out, fs, 0)
  else tryDownloadMethods fs methodOk out [0, 1, 2, 3, 4]

/-- Zero-padded two-digit field, Python `f"{n:02d}"` for `n ≥ 0`. -/
def pad2 (n : Nat) : String := if n < 10 then "0" ++ toString n else toString n

/-- `format_timestamp` (transcribe.py lines 261-266) on whole seconds
(Python truncates float seconds with `int`; segment offsets are
nonnegative, so `Nat` division/modulo match). -/
def format_timestamp (s : Nat) : String :=
  pad2 (s / 3600) ++ ":" ++ pad2 (s % 3600 / 60) ++ ":" ++ pad2 (s % 60)

/-- A transcription result as consumed by the Markdown writer of
transcribe.py: a dict bearing `segments` (each with start, end and
text), or plain text. -/
inductive Transcription where
  | segments : List (Nat × Nat × String) → Transcription
  | plain : String → Transcription
deriving Repr, DecidableEq

/-- Body lines of the Markdown file written by `save_transcript_to_file`
(transcribe.py lines 290-313): timestamped lines per segment when
segments are present, otherwise the flat text. -/
def mdBodyGroq : Transcription → String
  | .segments segs =>
    String.join (segs.map (fun seg =>
      "[" ++ format_timestamp seg.1 ++ " --> " ++ format_timestamp seg.2.1 ++ "] "
        ++ seg.2.2.trim ++ "\n\n"))
  | .plain text => text

/-- The full Markdown document written by `save_transcript_to_file`
(transcribe.py lines 290-313), with the wall-clock `time.strftime`
string as an explicit parameter.  Its inputs are exactly
`(video_id, transcription, video_title)` plus the clock — the function
receives no information about how the audio was obtained. -/
def mdDocumentGroq (title vid ts : String) (tr : Transcription) : String :=
  "# " ++ title ++ "\n\n" ++
  "Video ID: " ++ vid ++ "\n" ++
  "Transcribed at: " ++ ts ++ "\n" ++
  "Transcription by: Groq API (whisper-large-v3-turbo)\n\n" ++
  "## 文字起こし\n\n" ++
  mdBodyGroq tr

/-- One pass of transcribe.py `main` for one video id, from audio
download to the document content that would be saved (transcribe.py
lines 412-425): the audio file path is downloaded (or dummy-substituted),
its content is fed to the speech-to-text oracle, and the resulting
transcription is rendered.  `transcribe` abstracts
`transcribe_audio_with_groq`, which sees only the audio file content. -/
def transcribePipelineDoc (fsA : FS AudioData) (methodOk : Nat → Bool)
    (transcribe : AudioData → Option Transcription)
    (vid dir title ts : String) : Option String :=
  match download_youtube_audio fsA methodOk vid dir with
  | (none, _, _) => none
  | (some p, fs', _) =>
    match fsGet fs' p with
    | none => none
    | some a =>
      match transcribe a with
      | none => none
      | some tr => some (mdDocumentGroq title vid ts tr)

/-- The Markdown document written by the extractor's
`save_transcript_to_file` (youtube_livestream_extractor.py lines
127-152), with the `datetime.now().strftime` string as a parameter. -/
def mdDocumentExtractor (title vid ts transcript : String) : String :=
  "# " ++ title ++ "\n\n" ++
  "Video ID: " ++ vid ++ "\n" ++
  "Transcribed at: " ++ ts ++ "\n\n" ++
  "## Transcript\n\n" ++
  transcript ++ "\n"

/-- The sample transcript text of `create_sample_transcript`
(youtube_livestream_extractor.py lines 182-200). -/
def sampleTranscriptText : String :=
  "これはサンプルの文字起こしテキストです。\n\n" ++
  "実際のYouTube APIからの文字起こしが取得できなかったため、このサンプルファイルが生成されました。\n\n" ++
  "考えられる原因:\n" ++
  "1. 対象の動画に字幕が存在しない\n" ++
  "2. youtube-transcript-apiでエラーが発生した\n" ++
  "3. livestreams.jsonファイルの形式が想定と異なる\n\n" ++
  "ログファイルを確認して、詳細なエラー情報を確認してください。\n"

/-- `create_sample_transcript` (extractor lines 182-200): writes the
sample document for id `sample_video_id` into the default
`transcripts` output directory. -/
def create_sample_transcript (fs : FS String) (ts : String) : FS String :=
  fsSet fs (mdFilePath "transcripts" "sample_video_id")
    (mdDocumentExtractor "サンプル動画タイトル" "sample_video_id" ts sampleTranscriptText)

/-- A JSON value used as a video id by the extractor: a nonempty string
(Python's later `if not video_id` drops `None` and `""`; non-string ids
do not occur in the scenarios modelled here). -/
def strValOf : JVal → Option String
  | .jstr s => if s = "" then none else some s
  | _ => none

/-- The field scan of the extractor's `main` (lines 267-274): walk the
dict in order; on each string value containing a YouTube marker run
`extract_video_id`, stopping at the first hit; a marker-bearing value
that yields no id does not stop the scan. -/
def scanFieldsForId : List (String × JVal) → Option String
  | [] => none
  | (_, .jstr v) :: rest =>
    if strContains v "youtube.com" || strContains v "youtu.be" then
      match extract_video_id v with
      | some vid => some vid
      | none => scanFieldsForId rest
    else scanFieldsForId rest
  | _ :: rest => scanFieldsForId rest

/-- Per-stream id resolution of the extractor's `main` (lines 251-281):
`videoId` field, then `url` field via `extract_video_id`, then `id`
field, then the field scan; a bare string is treated as a URL when it
contains a YouTube marker.  (For a stream that is neither a dict nor a
string Python would raise `TypeError` on the `in` test; such inputs are
not exercised by any theorem below.) -/
def resolveStreamE (stream : JVal) : Option String :=
  match stream with
  | .jobj kvs =>
    match lookupKey kvs "videoId" with
    | some v => strValOf v
    | none =>
      match lookupKey kvs "url" with
      | some (.jstr u) => extract_video_id u
      | some _ => none
      | none =>
        match lookupKey kvs "id" with
        | some v => strValOf v
        | none => scanFieldsForId kvs
  | .jstr s =>
    if strContains s "youtube.com" || strContains s "youtu.be" then extract_video_id s
    else none
  | _ => none

/-- The stream loop of the extractor's `main` (lines 247-311): resolve
each stream; skip unresolvable ones and ones whose transcript file
already exists; skip ids whose transcript fetch comes back empty; on
the first transcript obtained, write the document and stop (`break`
after one success).  `trOracle` abstracts `get_video_transcript`
(empty string = failure), `titleOracle` abstracts `get_video_title`.
Returns the filesystem and the `processed` flag. -/
def extractorLoop (trOracle titleOracle : String → String) (ts : String) :
    List JVal → FS String → FS String × Bool
  | [], fs => (fs, false)
  | st :: rest, fs =>
    match resolveStreamE st with
    | none => extractorLoop trOracle titleOracle ts rest fs
    | some vid =>
      if check_transcript_exists fs "transcripts" vid then
        extractorLoop trOracle titleOracle ts rest fs
      else if trOracle vid = "" then
        extractorLoop trOracle titleOracle ts rest fs
      else
        (fsSet fs (mdFilePath "transcripts" vid)
          (mdDocumentExtractor (titleOracle vid) vid ts (trOracle vid)), true)

/-- The extractor's `main` (lines 219-318) after the livestream list has
been obtained: an empty list, or a loop that processes nothing, ends in
`create_sample_transcript`; a success ends the run directly. -/
def extractor_main (trOracle titleOracle : String → String) (ts : String)
    (streams : List JVal) (fs : FS String) : FS String × Bool :=
  if streams.isEmpty then (create_sample_transcript fs ts, false)
  else
    match extractorLoop trOracle titleOracle ts streams fs with
    | (fs', true) => (fs', true)
    | (fs', false) => (create_sample_transcript fs' ts, false)

/-- State threaded through the `main` loop of youtube_transcription.py
(lines 359-412): the in-memory processed set, the persisted progress
file (`none` = never written in this run beyond its initial content),
the set of ids whose output document exists, and the two counters. -/
structure RunState where
  processedVideos : List String
  progress : Option (List String)
  doneFiles : List String
  processedCount : Nat
  skippedCount : Nat
deriving Repr, DecidableEq

/-- `process_video` (youtube_transcription.py lines 204-254): re-derive
the id from the URL (any `ValueError` is caught and yields `False`),
skip if the output file exists, fetch the transcript (`none` = both the
terminal and the exhausted-retries failures of `get_transcript`),
format, then save.  `saveOk id = false` covers a save that raises —
caught by the surrounding `try`, returning `False`; the partially
written file such a raise can leave behind is the subject of
`saveTranscriptStates`, not of this bookkeeping model. -/
def process_video (doneFiles : List String) (fetch : String → Option Unit)
    (saveOk : String → Bool) (url : String) : Bool × List String :=
  match get_video_id_from_url url with
  | .error _ => (false, doneFiles)
  | .ok vid =>
    if vid ∈ doneFiles then (false, doneFiles)
    else
      match fetch vid with
      | none => (false, doneFiles)
      | some _ =>
        if saveOk vid then (true, vid :: doneFiles) else (false, doneFiles)

/-- The `for video in livestreams` loop of youtube_transcription.py
`main` (lines 362-408): stop at the limit; skip entries without a URL;
an id-derivation error is caught and the loop continues; already
processed ids bump the skip counter; after a successful
`process_video` the id enters the in-memory set, the counter rises and
the whole set is persisted via `save_progress`; on failure nothing
changes and the loop continues with the next candidate. -/
def ytMainLoop (limit : Nat) (fetch : String → Option Unit) (saveOk : String → Bool) :
    List (Option String) → RunState → RunState
  | [], st => st
  | v :: rest, st =>
    if limit ≤ st.processedCount then st
    else
      match v with
      | none => ytMainLoop limit fetch saveOk rest st
      | some url =>
        match get_video_id_from_url url with
        | .error _ => ytMainLoop limit fetch saveOk rest st
        | .ok vid =>
          if vid ∈ st.processedVideos then
            ytMainLoop limit fetch saveOk rest { st with skippedCount := st.skippedCount + 1 }
          else
            let pr := process_video st.doneFiles fetch saveOk url
            if pr.1 then
              ytMainLoop limit fetch saveOk rest
                { processedVideos := vid :: st.processedVideos,
                  progress := some (vid :: st.processedVideos),
                  doneFiles := pr.2,
                  processedCount := st.processedCount + 1,
                  skippedCount := st.skippedCount }
            else
              ytMainLoop limit fetch saveOk rest { st with doneFiles := pr.2 }

/-! ## Theorems for the claims -/

/-- C1 (code_bug): the spec demands that writing be atomic — no file at
the canonical output path (the path consulted by the already-exists
check) may ever hold a proper prefix of the full document.  The code
opens the canonical path directly with mode `w`, so immediately after
the open (the middle state of `saveTranscriptStates`) the file exists
at the canonical path with content `""`, a proper prefix of the full
document — and `check_transcript_exists` already reports it as done. -/
theorem c1_partial_file_visible :
    saveTranscriptStates [] "# title\n\nbody" "transcripts" "abc12345678" =
      [[],
       [(mdFilePath "transcripts" "abc12345678", "")],
       [(mdFilePath "transcripts" "abc12345678", "# title\n\nbody")]]
    ∧ check_transcript_exists [(mdFilePath "transcripts" "abc12345678", "")]
        "transcripts" "abc12345678" = true
    ∧ ("" : String).data <+: "# title\n\nbody".data
    ∧ ("" : String) ≠ "# title\n\nbody" := by
  refine ⟨by decide, by decide, by decide, by decide⟩

/-- C3 counterexample: with `max_retries = 0` the loop
`for attempt in range(self.max_retries)` never runs, so a terminal
content-absence operation is invoked zero times, not exactly once — the
claim's "regardless of the configured max_retries" fails. -/
theorem c3_zero_retries_cex :
    (get_transcript 0 5 (fun _ => FetchOutcome.contentError) (fun _ => 1)).2.1 ≠ 1 := by
  decide

/-- C3 (amended): provided `max_retries ≥ 1`, a first-attempt
content-absence failure returns `None` immediately after exactly one
invocation, with no backoff wait. -/
theorem c3_content_error_single_attempt (maxRetries : Nat) (delay : ℚ)
    (oracle : Nat → FetchOutcome) (jitter : Nat → ℚ)
    (h1 : 1 ≤ maxRetries) (h2 : oracle 0 = FetchOutcome.contentError) :
    get_transcript maxRetries delay oracle jitter = (none, 1, 0) := by
  cases maxRetries with
  | zero => omega
  | succ r => simp [get_transcript, getTranscriptGo, h2]

/-- Witness for `c3_content_error_single_attempt` at `max_retries = 3`. -/
theorem c3_single_attempt_witness :
    get_transcript 3 5 (fun _ => FetchOutcome.contentError) (fun _ => 1) = (none, 1, 0) :=
  c3_content_error_single_attempt 3 5 (fun _ => FetchOutcome.contentError) (fun _ => 1)
    (by decide) rfl

/-- C5 counterexample: for the input string `"hello"`, which lacks any
recognized URL pattern, the split-based resolver
`YouTubeTranscription.get_video_id_from_url` raises `ValueError`
(modelled as `Except.error`) instead of returning an unresolvable
value. -/
theorem c5_split_resolver_raises_cex :
    get_video_id_from_url "hello" = Except.error "無効なYouTube URL: hello" := rfl

/-- C6 counterexample: for the unrecognized mapping `{"x": "y"}` the
transcribe.py normalizer returns the mapping itself — not a sequence of
its values. -/
theorem c6_mapping_not_sequence_cex :
    get_livestreams_T (.jobj [("x", .jstr "y")]) = .jobj [("x", .jstr "y")]
    ∧ (get_livestreams_T (.jobj [("x", .jstr "y")])).isArr = false :=
  ⟨rfl, rfl⟩

/-- C7 counterexample: given a mapping holding both a `livestreams` list
(`["L"]`) and an `episodes` list (`["E"]`), the extractor's normalizer
returns the `episodes` list, not the `livestreams` list the claimed
priority order requires. -/
theorem c7_priority_order_cex :
    get_livestreams_E
        (.jobj [("livestreams", .jarr [.jstr "L"]), ("episodes", .jarr [.jstr "E"])])
      = .jarr [.jstr "E"]
    ∧ JVal.jarr [.jstr "E"] ≠ JVal.jarr [.jstr "L"] := by
  refine ⟨rfl, fun h => ?_⟩
  injection h with h1
  injection h1 with h2
  injection h2 with h3
  exact absurd h3 (by decide)

/-- C8 counterexample: on input `["https://youtu.be/zzzzzzzzzzz"]` with
the transcript fetch failing terminally for every id, the extractor run
ends with `processed = False` but an output artifact *is* created: the
fallback `create_sample_transcript` writes
`transcripts/sample_video_id.md`, contradicting "the run creates no
output artifact in the output directory". -/
theorem c8_sample_artifact_cex :
    (fsGet (extractor_main (fun _ => "") (fun _ => "T") "2025-01-01 00:00:00"
        [.jstr "https://youtu.be/zzzzzzzzzzz"] []).1
      (mdFilePath "transcripts" "sample_video_id")).isSome = true := by
  decide

set_option maxRecDepth 8192 in
/-- C8 (amended): on input `["https://youtu.be/zzzzzzzzzzz"]` with every
strategy failing terminally, the run terminates reporting zero processed
items without raising (the embedding is total), and writes no artifact
for the candidate id `zzzzzzzzzzz` — but it does create the fallback
sample artifact `transcripts/sample_video_id.md`, so the output
directory (which doubles as the progress record) is not left empty. -/
theorem c8_terminal_failure_run :
    (extractor_main (fun _ => "") (fun _ => "T") "2025-01-01 00:00:00"
        [.jstr "https://youtu.be/zzzzzzzzzzz"] []).2 = false
    ∧ fsGet (extractor_main (fun _ => "") (fun _ => "T") "2025-01-01 00:00:00"
        [.jstr "https://youtu.be/zzzzzzzzzzz"] []).1
        (mdFilePath "transcripts" "zzzzzzzzzzz") = none
    ∧ fsGet (extractor_main (fun _ => "") (fun _ => "T") "2025-01-01 00:00:00"
        [.jstr "https://youtu.be/zzzzzzzzzzz"] []).1
        (mdFilePath "transcripts" "sample_video_id")
      = some (mdDocumentExtractor "サンプル動画タイトル" "sample_video_id"
          "2025-01-01 00:00:00" sampleTranscriptText) := by
  refine ⟨by decide, by decide, by decide⟩

/-- C9 (code_bug): when every download variant fails, the placeholder
dummy MP3 is substituted and the pipeline proceeds to a transcription
attempt (first conjunct: the path is returned, the dummy content is on
disk, all 5 variants were invoked).  But the resulting document is not
tagged as synthetic: for the same speech-to-text output, the document
produced by the placeholder run is byte-identical to the one produced
by a run whose first download variant succeeds (second conjunct), and
its metadata header is the fixed Groq header (third conjunct) — the
writer `save_transcript_to_file` receives no provenance information at
all. -/
theorem c9_placeholder_untagged :
    download_youtube_audio [] (fun _ => false) "abc12345678" "audio"
      = (some (audioFilePath "audio" "abc12345678"),
         [(audioFilePath "audio" "abc12345678", AudioData.dummy)], 5)
    ∧ transcribePipelineDoc [] (fun _ => false)
        (fun _ => some (Transcription.plain "こんにちは")) "abc12345678" "audio" "T"
        "2025-01-01 00:00:00"
      = transcribePipelineDoc [] (fun _ => true)
        (fun _ => some (Transcription.plain "こんにちは")) "abc12345678" "audio" "T"
        "2025-01-01 00:00:00"
    ∧ transcribePipelineDoc [] (fun _ => false)
        (fun _ => some (Transcription.plain "こんにちは")) "abc12345678" "audio" "T"
        "2025-01-01 00:00:00"
      = some ("# T\n\nVideo ID: abc12345678\nTranscribed at: 2025-01-01 00:00:00\n"
          ++ "Transcription by: Groq API (whisper-large-v3-turbo)\n\n## 文字起こし\n\nこんにちは") := by
  refine ⟨by decide, by decide, by decide⟩

/-- C10: `download_youtube_audio` is idempotent at the file level —
whenever a file already exists at `<output_dir>/<video_id>.mp3`
(whatever its content, dummy included), the path is returned
immediately, no download variant is invoked, and the filesystem is
untouched. -/
theorem c10_audio_idempotent (fs : FS AudioData) (methodOk : Nat → Bool)
    (vid dir : String) (a : AudioData)
    (h : fsGet fs (audioFilePath dir vid) = some a) :
    download_youtube_audio fs methodOk vid dir
      = (some (audioFilePath dir vid), fs, 0) := by
  simp [download_youtube_audio, h]

/-- Witness for `c10_audio_idempotent`: a dummy file left by a previous
failed run is returned as-is even though every variant would now
succeed. -/
theorem c10_idempotent_witness :
    fsGet [(audioFilePath "audio" "abc12345678", AudioData.dummy)]
        (audioFilePath "audio" "abc12345678") = some AudioData.dummy
    ∧ download_youtube_audio [(audioFilePath "audio" "abc12345678", AudioData.dummy)]
        (fun _ => true) "abc12345678" "audio"
      = (some (audioFilePath "audio" "abc12345678"),
         [(audioFilePath "audio" "abc12345678", AudioData.dummy)], 0) :=
  ⟨by decide,
   c10_audio_idempotent [(audioFilePath "audio" "abc12345678", AudioData.dummy)]
     (fun _ => true) "abc12345678" "audio" AudioData.dummy (by decide)⟩

/-- The regex capture at a position with at least 11 id-alphabet
characters delivers exactly those 11 characters. -/
lemma takeId_valid (id suf : List Char) (h1 : id.length = 11)
    (h2 : id.all isIdChar = true) : takeId (id ++ suf) = some id := by
  have ht : (id ++ suf).take 11 = id := by
    have := List.take_left id suf
    rwa [h1] at this
  simp [takeId, ht, h2]
  omega

set_option maxRecDepth 16384 in
/-- Scanning a canonical watch URL: every position before the
`youtube.com/watch?v=` marker fails on the concrete characters of the
URL head, so a capture that succeeds right after the marker is the
search result. -/
lemma searchCore_watch (id suf : List Char) (h : takeId (id ++ suf) = some id) :
    searchCore ("https://www.youtube.com/watch?v=".data ++ (id ++ suf)) = some id := by
  have step : searchCore ("https://www.youtube.com/watch?v=".data ++ (id ++ suf)) =
      (match takeId (id ++ suf) with
       | some r => some r
       | none => searchCore ("outube.com/watch?v=".data ++ (id ++ suf))) := rfl
  rw [step, h]

set_option maxRecDepth 16384 in
/-- Scanning a canonical short URL: the capture right after the
`youtu.be/` marker is the search result. -/
lemma searchCore_short (id suf : List Char) (h : takeId (id ++ suf) = some id) :
    searchCore ("https://youtu.be/".data ++ (id ++ suf)) = some id := by
  have step : searchCore ("https://youtu.be/".data ++ (id ++ suf)) =
      (match takeId (id ++ suf) with
       | some r => some r
       | none => searchCore ("outu.be/".data ++ (id ++ suf))) := rfl
  rw [step, h]

/-- C5 (amended): for canonical watch/short URLs whose id is exactly 11
characters of the allowed alphabet (followed by anything), the
regex-based resolver `extract_video_id` returns exactly that id, and it
returns `None` (never an exception) whenever the pattern is absent; the
split-based resolver `get_video_id_from_url`, however, raises
`ValueError` (modelled as `Except.error`) for every string lacking both
URL markers. -/
theorem c5_resolvers_amended (id suf : List Char) (s : String)
    (h1 : id.length = 11) (h2 : id.all isIdChar = true)
    (h3 : strContains s "youtube.com/watch?v=" = false)
    (h4 : strContains s "youtu.be/" = false) :
    extract_video_id (String.mk ("https://www.youtube.com/watch?v=".data ++ (id ++ suf)))
        = some (String.mk id)
    ∧ extract_video_id (String.mk ("https://youtu.be/".data ++ (id ++ suf)))
        = some (String.mk id)
    ∧ (∀ t : String, searchCore t.data = none → extract_video_id t = none)
    ∧ get_video_id_from_url s = Except.error ("無効なYouTube URL: " ++ s) := by
  refine ⟨?_, ?_, ?_, ?_⟩
  · show (if (("https://www.youtube.com/watch?v=".data ++ (id ++ suf)).isEmpty : Bool) then none
      else (searchCore ("https://www.youtube.com/watch?v=".data ++ (id ++ suf))).map
        (fun cs => String.mk cs)) = some (String.mk id)
    rw [searchCore_watch id suf (takeId_valid id suf h1 h2)]
    rfl
  · show (if (("https://youtu.be/".data ++ (id ++ suf)).isEmpty : Bool) then none
      else (searchCore ("https://youtu.be/".data ++ (id ++ suf))).map
        (fun cs => String.mk cs)) = some (String.mk id)
    rw [searchCore_short id suf (takeId_valid id suf h1 h2)]
    rfl
  · intro t ht
    unfold extract_video_id
    rw [ht]
    split <;> rfl
  · simp [get_video_id_from_url, h3, h4]

/-- Witness for `c5_resolvers_amended` at the id `abcdefghijk`, empty
suffix, and the patternless string `hello`. -/
theorem c5_resolvers_witness :
    extract_video_id "https://www.youtube.com/watch?v=abcdefghijk" = some "abcdefghijk"
    ∧ get_video_id_from_url "hello" = Except.error "無効なYouTube URL: hello" := by
  have h := c5_resolvers_amended "abcdefghijk".data [] "hello"
    (by decide) (by decide) (by decide) (by decide)
  exact ⟨by simpa using h.1, h.2.2.2⟩

/-- C6 (amended): both normalizers pass bare sequences through, and the
extractor's normalizer always returns a sequence for a mapping — the
recognized container-key lists, else the URL-bearing values, else all
mapping values.  The transcribe.py variant, however, returns an
unrecognized mapping itself (not its values as a sequence).  Neither
embedding can raise: both are total functions. -/
theorem c6_normalizer_shapes (xs : List JVal) (kvs : List (String × JVal))
    (hL : keyList kvs "livestreams" = none)
    (hE : keyList kvs "episodes" = none)
    (hV : keyList kvs "videos" = none) :
    get_livestreams_E (.jarr xs) = .jarr xs
    ∧ get_livestreams_T (.jarr xs) = .jarr xs
    ∧ (∀ kvs2 : List (String × JVal), (get_livestreams_E (.jobj kvs2)).isArr = true)
    ∧ ((kvs.filter (fun p => videoLikeValue p.2)).isEmpty = true →
        get_livestreams_E (.jobj kvs) = .jarr (kvs.map (fun p => p.2)))
    ∧ ((kvs.filter (fun p => videoLikeValue p.2)).isEmpty = false →
        get_livestreams_E (.jobj kvs)
          = .jarr ((kvs.filter (fun p => videoLikeValue p.2)).map (fun p => p.2)))
    ∧ get_livestreams_T (.jobj kvs) = .jobj kvs := by
  have hmap : ∀ {α β : Type} (f : α → β) (l : List α), (l.map f).isEmpty = l.isEmpty := by
    intro α β f l; cases l <;> rfl
  refine ⟨rfl, rfl, ?_, ?_, ?_, ?_⟩
  · intro kvs2
    unfold get_livestreams_E
    (repeat' split) <;> try rfl
    all_goals (simp only []; split <;> rfl)
  · intro hi
    simp [get_livestreams_E, hL, hE, hV, hmap, hi]
  · intro hi
    simp [get_livestreams_E, hL, hE, hV, hmap, hi]
  · simp [get_livestreams_T, hL, hE, hV]

/-- Witness for `c6_normalizer_shapes` at the bare sequence `["u"]` and
the unrecognized mapping `{"x": "y"}`. -/
theorem c6_normalizer_witness :
    get_livestreams_E (.jarr [.jstr "u"]) = .jarr [.jstr "u"]
    ∧ get_livestreams_E (.jobj [("x", .jstr "y")]) = .jarr [.jstr "y"]
    ∧ get_livestreams_T (.jobj [("x", .jstr "y")]) = .jobj [("x", .jstr "y")] := by
  have h := c6_normalizer_shapes [.jstr "u"] [("x", .jstr "y")] rfl rfl rfl
  exact ⟨h.1, h.2.2.2.1 rfl, h.2.2.2.2.2⟩

/-- C7 (amended): each normalizer returns the list bound to the earliest
container key in its own fixed priority order, ignoring later keys —
but the orders differ: transcribe.py probes `livestreams`, `episodes`,
`videos`; the extractor probes `episodes`, `videos`, `livestreams`. -/
theorem c7_priority_orders (kvs : List (String × JVal)) (l : List JVal) :
    (keyList kvs "livestreams" = some l → get_livestreams_T (.jobj kvs) = .jarr l)
    ∧ (keyList kvs "livestreams" = none → keyList kvs "episodes" = some l →
        get_livestreams_T (.jobj kvs) = .jarr l)
    ∧ (keyList kvs "livestreams" = none → keyList kvs "episodes" = none →
        keyList kvs "videos" = some l → get_livestreams_T (.jobj kvs) = .jarr l)
    ∧ (keyList kvs "episodes" = some l → get_livestreams_E (.jobj kvs) = .jarr l)
    ∧ (keyList kvs "episodes" = none → keyList kvs "videos" = some l →
        get_livestreams_E (.jobj kvs) = .jarr l)
    ∧ (keyList kvs "episodes" = none → keyList kvs "videos" = none →
        keyList kvs "livestreams" = some l → get_livestreams_E (.jobj kvs) = .jarr l) := by
  refine ⟨?_, ?_, ?_, ?_, ?_, ?_⟩
  · intro h1; simp [get_livestreams_T, h1]
  · intro h1 h2; simp [get_livestreams_T, h1, h2]
  · intro h1 h2 h3; simp [get_livestreams_T, h1, h2, h3]
  · intro h1; simp [get_livestreams_E, h1]
  · intro h1 h2; simp [get_livestreams_E, h1, h2]
  · intro h1 h2 h3; simp [get_livestreams_E, h1, h2, h3]

/-- Witness for `c7_priority_orders` on a mapping holding both a
`livestreams` and an `episodes` list: each variant picks its own
first-priority key. -/
theorem c7_priority_witness :
    get_livestreams_T
        (.jobj [("livestreams", .jarr [.jstr "L"]), ("episodes", .jarr [.jstr "E"])])
      = .jarr [.jstr "L"]
    ∧ get_livestreams_E
        (.jobj [("livestreams", .jarr [.jstr "L"]), ("episodes", .jarr [.jstr "E"])])
      = .jarr [.jstr "E"] :=
  ⟨(c7_priority_orders
      [("livestreams", .jarr [.jstr "L"]), ("episodes", .jarr [.jstr "E"])]
      [.jstr "L"]).1 rfl,
   (c7_priority_orders
      [("livestreams", .jarr [.jstr "L"]), ("episodes", .jarr [.jstr "E"])]
      [.jstr "E"]).2.2.2.1 rfl⟩

/-- If every attempt fails transiently, the retry loop makes exactly
`rem` further invocations (one per remaining iteration) and returns
`None`. -/
lemma getTranscriptGo_all_transient (maxR : Nat) (delay : ℚ)
    (oracle : Nat → FetchOutcome) (jitter : Nat → ℚ)
    (hall : ∀ i, oracle i = FetchOutcome.transientError) :
    ∀ rem attempt, attempt + rem = maxR →
      ∃ w, getTranscriptGo maxR delay oracle jitter attempt rem = (none, rem, w) := by
  intro rem
  induction rem with
  | zero => exact fun attempt _ => ⟨0, rfl⟩
  | succ r ih =>
    intro attempt h
    unfold getTranscriptGo
    rw [hall attempt]
    by_cases hc : attempt + 1 < maxR
    · obtain ⟨w, hw⟩ := ih (attempt + 1) (by omega)
      rw [if_pos hc, hw]
      exact ⟨w + delay * jitter attempt, rfl⟩
    · have hr : r = 0 := by omega
      subst hr
      rw [if_neg hc]
      exact ⟨0, rfl⟩

/-- If the operation fails transiently `n` times starting at `attempt`
and then succeeds, and the loop has room for all of them, the retry
loop returns success after exactly `n + 1` invocations with a
cumulative wait of one jittered delay per failed attempt, bounded below
by `n * delay * 1/2` and above by `n * delay * 3/2`. -/
lemma getTranscriptGo_succeeds (maxR : Nat) (delay : ℚ)
    (oracle : Nat → FetchOutcome) (jitter : Nat → ℚ) (hd : 0 ≤ delay)
    (hj : ∀ i, 1/2 ≤ jitter i ∧ jitter i ≤ 3/2) :
    ∀ n attempt rem, attempt + rem = maxR → attempt + n < maxR →
      (∀ k, k < n → oracle (attempt + k) = FetchOutcome.transientError) →
      oracle (attempt + n) = FetchOutcome.success →
      ∃ w, getTranscriptGo maxR delay oracle jitter attempt rem = (some (), n + 1, w)
        ∧ (n : ℚ) * (delay * (1/2)) ≤ w ∧ w ≤ (n : ℚ) * (delay * (3/2)) := by
  intro n
  induction n with
  | zero =>
    intro attempt rem h hlt hfail hsucc
    cases rem with
    | zero => omega
    | succ r =>
      unfold getTranscriptGo
      rw [show attempt + 0 = attempt from rfl] at hsucc
      rw [hsucc]
      exact ⟨0, rfl, by simp, by simp⟩
  | succ m ih =>
    intro attempt rem h hlt hfail hsucc
    cases rem with
    | zero => omega
    | succ r =>
      unfold getTranscriptGo
      have h0 : oracle attempt = FetchOutcome.transientError := by
        have := hfail 0 (by omega)
        rwa [Nat.add_zero] at this
      rw [h0, if_pos (by omega : attempt + 1 < maxR)]
      obtain ⟨w, hw, hlo, hhi⟩ := ih (attempt + 1) r (by omega) (by omega)
        (fun k hk => by
          have := hfail (k + 1) (by omega)
          rwa [show attempt + (k + 1) = attempt + 1 + k by omega] at this)
        (by rwa [show attempt + 1 + m = attempt + (m + 1) by omega])
      refine ⟨w + delay * jitter attempt, by rw [hw], ?_, ?_⟩
      · have h1 : delay * (1/2) ≤ delay * jitter attempt :=
          mul_le_mul_of_nonneg_left (hj attempt).1 hd
        push_cast
        linarith
      · have h1 : delay * jitter attempt ≤ delay * (3/2) :=
          mul_le_mul_of_nonneg_left (hj attempt).2 hd
        push_cast
        linarith

/-- C4: with jitter drawn from `[0.5, 1.5]`, an operation that fails
transiently on its first `N - 1` invocations and succeeds on the `N`-th
(`1 ≤ N ≤ max_retries`) makes the retry loop return success after
exactly `N` invocations, with a cumulative wait of at least
`(N-1) * base_delay * 0.5` (and at most `(N-1) * base_delay * 1.5`);
and an operation that always fails transiently makes it return `None`
after exactly `max_retries` invocations. -/
theorem c4_transient_retry_counts (N maxR : Nat) (delay : ℚ)
    (oracle jitter : Nat → _) (hd : 0 ≤ delay)
    (hj : ∀ i, 1/2 ≤ jitter i ∧ jitter i ≤ 3/2)
    (hN1 : 1 ≤ N) (hN2 : N ≤ maxR)
    (hfail : ∀ k, k < N - 1 → oracle k = FetchOutcome.transientError)
    (hsucc : oracle (N - 1) = FetchOutcome.success) :
    (∃ w, get_transcript maxR delay oracle jitter = (some (), N, w)
      ∧ ((N - 1 : Nat) : ℚ) * (delay * (1/2)) ≤ w
      ∧ w ≤ ((N - 1 : Nat) : ℚ) * (delay * (3/2)))
    ∧ (∀ oracle2 : Nat → FetchOutcome, (∀ i, oracle2 i = FetchOutcome.transientError) →
        ∃ w, get_transcript maxR delay oracle2 jitter = (none, maxR, w)) := by
  constructor
  · obtain ⟨w, hw, hlo, hhi⟩ := getTranscriptGo_succeeds maxR delay oracle jitter hd hj
      (N - 1) 0 maxR (by omega) (by omega)
      (fun k hk => by simpa using hfail k hk)
      (by simpa using hsucc)
    refine ⟨w, ?_, hlo, hhi⟩
    rw [get_transcript, hw]
    congr 2
    omega
  · intro oracle2 hall
    exact getTranscriptGo_all_transient maxR delay oracle2 jitter hall maxR 0 (by omega)

/-- Witness for `c4_transient_retry_counts` at `N = 2`,
`max_retries = 3`, `base_delay = 5`, unit jitter. -/
theorem c4_transient_retry_witness :
    (∃ w, get_transcript 3 5 (fun i => if i = 1 then FetchOutcome.success
        else FetchOutcome.transientError) (fun _ => 1) = (some (), 2, w)
      ∧ ((1 : Nat) : ℚ) * (5 * (1/2)) ≤ w ∧ w ≤ ((1 : Nat) : ℚ) * (5 * (3/2)))
    ∧ (∃ w, get_transcript 3 5 (fun _ => FetchOutcome.transientError) (fun _ => 1)
        = (none, 3, w)) := by
  have h := c4_transient_retry_counts 2 3 5
    (fun i => if i = 1 then FetchOutcome.success else FetchOutcome.transientError)
    (fun _ => 1) (by norm_num) (fun _ => ⟨by norm_num, by norm_num⟩)
    (by omega) (by omega)
    (fun k hk => by
      have hk0 : k = 0 := by omega
      subst hk0; rfl)
    rfl
  exact ⟨h.1, h.2 (fun _ => FetchOutcome.transientError) (fun _ => rfl)⟩

/-- A failed `process_video` changes nothing: every failure branch
returns the filesystem it was given. -/
lemma process_video_false_eq (df : List String) (fetch : String → Option Unit)
    (saveOk : String → Bool) (url : String)
    (h : (process_video df fetch saveOk url).1 = false) :
    process_video df fetch saveOk url = (false, df) := by
  unfold process_video at h ⊢
  cases hv : get_video_id_from_url url with
  | error e => rfl
  | ok vid =>
    rw [hv] at h
    simp only [] at h ⊢
    by_cases hmem : vid ∈ df
    · simp only [hmem, if_true]
    · simp only [hmem, if_false] at h ⊢
      cases hf : fetch vid with
      | none => rfl
      | some u =>
        rw [hf] at h
        simp only [] at h ⊢
        by_cases hs : saveOk vid = true
        · simp [hs] at h
        · simp [hs]

/-- `process_video` succeeds only when the save for the resolved id
succeeded. -/
lemma process_video_true_save (df : List String) (fetch : String → Option Unit)
    (saveOk : String → Bool) (url vid : String)
    (hv : get_video_id_from_url url = .ok vid)
    (h : (process_video df fetch saveOk url).1 = true) :
    saveOk vid = true := by
  unfold process_video at h
  rw [hv] at h
  simp only [] at h
  by_cases hmem : vid ∈ df
  · simp [hmem] at h
  · simp only [hmem, if_false] at h
    cases hf : fetch vid with
    | none => rw [hf] at h; simp at h
    | some u =>
      rw [hf] at h
      simp only [] at h
      by_cases hs : saveOk vid = true
      · exact hs
      · simp [hs] at h

/-- Every id in the in-memory processed set after the run was either
there before the run, or had a successful save. -/
lemma ytMainLoop_processed_source (limit : Nat) (fetch : String → Option Unit)
    (saveOk : String → Bool) :
    ∀ (vids : List (Option String)) (st : RunState) (id : String),
      id ∈ (ytMainLoop limit fetch saveOk vids st).processedVideos →
      id ∈ st.processedVideos ∨ saveOk id = true := by
  intro vids
  induction vids with
  | nil => exact fun st id h => Or.inl h
  | cons v rest ih =>
    intro st id h
    unfold ytMainLoop at h
    by_cases hlim : limit ≤ st.processedCount
    · rw [if_pos hlim] at h; exact Or.inl h
    · rw [if_neg hlim] at h
      cases v with
      | none => exact ih st id h
      | some url =>
        simp only [] at h
        cases hv : get_video_id_from_url url with
        | error e => rw [hv] at h; exact ih st id h
        | ok vid =>
          rw [hv] at h
          simp only [] at h
          by_cases hmem : vid ∈ st.processedVideos
          · simp only [hmem, if_true] at h
            exact ih { st with skippedCount := st.skippedCount + 1 } id h
          · simp only [hmem, if_false] at h
            cases hpr : process_video st.doneFiles fetch saveOk url with
            | mk b dfs =>
              rw [hpr] at h
              simp only [] at h
              cases b with
              | true =>
                have hres := ih ⟨vid :: st.processedVideos,
                    some (vid :: st.processedVideos), dfs,
                    st.processedCount + 1, st.skippedCount⟩ id h
                rcases hres with hin | hsave
                · rcases List.mem_cons.mp hin with heq | hin2
                  · subst heq
                    exact Or.inr (process_video_true_save st.doneFiles fetch saveOk
                      url id hv (by rw [hpr]))
                  · exact Or.inl hin2
                · exact Or.inr hsave
              | false => exact ih { st with doneFiles := dfs } id h

/-- Every id in a persisted progress record after the run was in the
record before the run, in the in-memory set before the run, or had a
successful save. -/
lemma ytMainLoop_progress_source (limit : Nat) (fetch : String → Option Unit)
    (saveOk : String → Bool) :
    ∀ (vids : List (Option String)) (st : RunState) (l : List String) (id : String),
      (ytMainLoop limit fetch saveOk vids st).progress = some l → id ∈ l →
      (∃ l0, st.progress = some l0 ∧ id ∈ l0) ∨ id ∈ st.processedVideos
        ∨ saveOk id = true := by
  intro vids
  induction vids with
  | nil => exact fun st l id h hm => Or.inl ⟨l, h, hm⟩
  | cons v rest ih =>
    intro st l id h hm
    unfold ytMainLoop at h
    by_cases hlim : limit ≤ st.processedCount
    · rw [if_pos hlim] at h; exact Or.inl ⟨l, h, hm⟩
    · rw [if_neg hlim] at h
      cases v with
      | none => exact ih st l id h hm
      | some url =>
        simp only [] at h
        cases hv : get_video_id_from_url url with
        | error e => rw [hv] at h; exact ih st l id h hm
        | ok vid =>
          rw [hv] at h
          simp only [] at h
          by_cases hmem : vid ∈ st.processedVideos
          · simp only [hmem, if_true] at h
            exact ih { st with skippedCount := st.skippedCount + 1 } l id h hm
          · simp only [hmem, if_false] at h
            cases hpr : process_video st.doneFiles fetch saveOk url with
            | mk b dfs =>
              rw [hpr] at h
              simp only [] at h
              cases b with
              | true =>
                have hres := ih ⟨vid :: st.processedVideos,
                    some (vid :: st.processedVideos), dfs,
                    st.processedCount + 1, st.skippedCount⟩ l id h hm
                rcases hres with hrec | hin | hsave
                · obtain ⟨l0, hl0, hidl0⟩ := hrec
                  have hinj : vid :: st.processedVideos = l0 := by
                    injection hl0
                  rw [← hinj] at hidl0
                  rcases List.mem_cons.mp hidl0 with heq2 | hin2
                  · subst heq2
                    exact Or.inr (Or.inr (process_video_true_save st.doneFiles fetch
                      saveOk url id hv (by rw [hpr])))
                  · exact Or.inr (Or.inl hin2)
                · rcases List.mem_cons.mp hin with heq2 | hin2
                  · subst heq2
                    exact Or.inr (Or.inr (process_video_true_save st.doneFiles fetch
                      saveOk url id hv (by rw [hpr])))
                  · exact Or.inr (Or.inl hin2)
                · exact Or.inr (Or.inr hsave)
              | false => exact ih { st with doneFiles := dfs } l id h hm

/-- C2: the in-memory processed set and the persisted progress record
only ever gain ids whose document save succeeded (first two conjuncts);
and an eligible candidate whose save fails leaves the entire run state
unchanged — the run simply continues with the remaining candidates
(third conjunct). -/
theorem c2_mark_done_only_after_save (limit : Nat) (fetch : String → Option Unit)
    (saveOk : String → Bool) (vids : List (Option String)) (st : RunState)
    (url vid : String) (rest : List (Option String))
    (hv : get_video_id_from_url url = .ok vid)
    (hmem : vid ∉ st.processedVideos)
    (hlim : st.processedCount < limit)
    (hsave : saveOk vid = false) :
    (∀ id, id ∈ (ytMainLoop limit fetch saveOk vids st).processedVideos →
        id ∈ st.processedVideos ∨ saveOk id = true)
    ∧ (∀ l id, (ytMainLoop limit fetch saveOk vids st).progress = some l → id ∈ l →
        (∃ l0, st.progress = some l0 ∧ id ∈ l0) ∨ id ∈ st.processedVideos
          ∨ saveOk id = true)
    ∧ ytMainLoop limit fetch saveOk (some url :: rest) st
        = ytMainLoop limit fetch saveOk rest st := by
  refine ⟨fun id h => ytMainLoop_processed_source limit fetch saveOk vids st id h,
    fun l id h hm => ytMainLoop_progress_source limit fetch saveOk vids st l id h hm, ?_⟩
  have hfalse : (process_video st.doneFiles fetch saveOk url).1 = false := by
    cases hb : (process_video st.doneFiles fetch saveOk url).1 with
    | false => rfl
    | true =>
      have hs := process_video_true_save st.doneFiles fetch saveOk url vid hv hb
      rw [hs] at hsave
      simp at hsave
  have heq := process_video_false_eq st.doneFiles fetch saveOk url hfalse
  have hnl : ¬ limit ≤ st.processedCount := by omega
  simp [ytMainLoop, hv, heq, hnl, hmem]

/-- Witness for `c2_mark_done_only_after_save`: a run over the single
candidate `https://youtu.be/zzzzzzzzzzz` whose save fails behaves
exactly like the run over the empty candidate list — nothing is marked
done and nothing is persisted. -/
theorem c2_mark_done_witness :
    ytMainLoop 1 (fun _ => some ()) (fun _ => false)
        [some "https://youtu.be/zzzzzzzzzzz"] ⟨[], none, [], 0, 0⟩
      = ytMainLoop 1 (fun _ => some ()) (fun _ => false) [] ⟨[], none, [], 0, 0⟩ :=
  (c2_mark_done_only_after_save 1 (fun _ => some ()) (fun _ => false)
    [some "https://youtu.be/zzzzzzzzzzz"] ⟨[], none, [], 0, 0⟩
    "https://youtu.be/zzzzzzzzzzz" "zzzzzzzzzzz" []
    rfl (by simp) (by decide) rfl).2.2

end Pipeline
